import Mathlib

/-!
Verification of the DewDash acquisition/serving bridge
(source: s24_web_dashboard.py).

The Python program keeps one global dict of sensor values
(reading fields plus a status string), mutated by a single
background acquisition thread and read by HTTP handlers.
We embed:

  * the register decoder inlined in `read_sensor_data`
    (the scaling branch on the first register),
  * one acquisition cycle (the body of the `while True` loop
    in `read_sensor_data`), including whether
    `modbus_client.close()` runs on that cycle,
  * a heap-level view of the shared dict: a successful cycle
    rebinds the global to a freshly built dict, a failed cycle
    mutates the `status` key of the current dict in place,
  * the `/api/data` and `/shutdown` route handlers and the
    shutdown flag set in `main`'s interrupt handler.

Python floats are modelled as rationals; all arithmetic the
decoder performs (division by the constants 100 and 20,
subtraction) is exact on the values involved.
-/

/-- The reading fields of the `sensor_data` dict built on a successful
cycle (everything except the `status` key). -/
structure Reading where
  humidity : ℚ
  temp_c : ℚ
  temp_f : ℚ
  dewpoint_c : ℚ
  dewpoint_f : ℚ
  dewpoint_spread : ℚ
  timestamp : String
  raw_values : List ℕ
deriving DecidableEq, Repr

/-- The reading part of the initial `sensor_data` dict (module top level):
all numeric fields `0.0`, empty timestamp, `raw_values = [0,0,0,0,0]`. -/
def zeroReading : Reading :=
  { humidity := 0
    temp_c := 0
    temp_f := 0
    dewpoint_c := 0
    dewpoint_f := 0
    dewpoint_spread := 0
    timestamp := ""
    raw_values := [0, 0, 0, 0, 0] }

/-- The decode step inlined in `read_sensor_data`: indexes
`raw_values[0] .. raw_values[4]`, scales by `/100` and `/20` when
`raw_values[0] > 1000` and casts directly otherwise, then computes
`dewpoint_spread = temp_c - dewpoint_c` after the branch.  A list
with fewer than five elements raises `IndexError` in Python, which
we model as `none`; a longer list decodes from its first five
elements and is stored whole in `raw_values`, as in the source. -/
def decodeRegisters (raw : List ℕ) (ts : String) : Option Reading :=
  match raw with
  | r0 :: r1 :: r2 :: r3 :: r4 :: _ =>
    let hv : ℚ × ℚ × ℚ × ℚ × ℚ :=
      if r0 > 1000 then
        ((r0 : ℚ) / 100, (r1 : ℚ) / 20, (r2 : ℚ) / 20, (r3 : ℚ) / 100, (r4 : ℚ) / 100)
      else
        ((r0 : ℚ), (r1 : ℚ), (r2 : ℚ), (r3 : ℚ), (r4 : ℚ))
    some
      { humidity := hv.1
        temp_c := hv.2.1
        temp_f := hv.2.2.1
        dewpoint_c := hv.2.2.2.1
        dewpoint_f := hv.2.2.2.2
        dewpoint_spread := hv.2.1 - hv.2.2.2.1
        timestamp := ts
        raw_values := raw }
  | _ => none

/-- The shared `sensor_data` dict: reading fields plus the `status` string. -/
abbrev SensorDict := Reading × String

/-- The `sensor_data` dict as initialised at module load. -/
def initial_sensor_data : SensorDict := (zeroReading, "Initializing...")

/-- The environment-determined outcome of one acquisition cycle:
`connectFail` models `modbus_client.connect()` returning `False`,
`modbusError` models `result.isError()` being true, `fault msg`
models any exception raised inside the `try` block, and
`readOk regs ts` models a successful register read returning
`regs` at wall-clock time `ts`. -/
inductive CycleOutcome where
  | connectFail : CycleOutcome
  | modbusError : CycleOutcome
  | fault : String → CycleOutcome
  | readOk : List ℕ → String → CycleOutcome
deriving DecidableEq, Repr

/-- The status string the loop writes for each failure outcome
(`none` for a read that decodes successfully). -/
def CycleOutcome.failureStatus : CycleOutcome → Option String
  | .connectFail => some "Connection Failed"
  | .modbusError => some "Modbus Error"
  | .fault m => some ("Error: " ++ m)
  | .readOk _ _ => none

/-- Whether the cycle publishes a fresh `Online` dict. -/
def CycleOutcome.isSuccess : CycleOutcome → Bool
  | .readOk regs ts => (decodeRegisters regs ts).isSome
  | _ => false

/-- One iteration of the `while True` loop in `read_sensor_data`,
acting on the current dict.  Returns the dict after the cycle and
whether `modbus_client.close()` executed on that iteration: `close()`
sits at the end of the `if modbus_client.connect():` block, so it is
skipped when `connect()` returns `False` and when an exception jumps
to the `except` handler (there is no `finally`). -/
def runCycle : CycleOutcome → SensorDict → SensorDict × Bool
  | .connectFail, (r, _) => ((r, "Connection Failed"), false)
  | .modbusError, (r, _) => ((r, "Modbus Error"), true)
  | .fault m, (r, _) => ((r, "Error: " ++ m), false)
  | .readOk regs ts, (r, _) =>
    match decodeRegisters regs ts with
    | some r2 => ((r2, "Online"), true)
    | none => ((r, "Error: list index out of range"), false)

/-- Heap-level view of the global `sensor_data` binding.  `current` is
the dict object the global names now; `frozen` lists the older dict
objects in allocation order (a reader holding a reference to one can
still serialize it).  A successful cycle rebinds the global to a new
dict, freezing the old one; a failed cycle mutates `current`'s status
key in place. -/
structure Store where
  frozen : List SensorDict
  current : SensorDict
deriving DecidableEq, Repr

/-- The store at process start: one dict, the initial `sensor_data`. -/
def initialStore : Store := { frozen := [], current := initial_sensor_data }

/-- Effect of one acquisition cycle on the heap-level store.  On
`readOk` with a decodable register list the loop builds a brand-new
dict and rebinds the global (`sensor_data = { ... }`); every failure
path executes `sensor_data['status'] = ...`, an in-place update of
the current dict. -/
def writerStep (o : CycleOutcome) (st : Store) : Store :=
  match o with
  | .readOk regs ts =>
    match decodeRegisters regs ts with
    | some r2 => { frozen := st.frozen ++ [st.current], current := (r2, "Online") }
    | none => { frozen := st.frozen, current := (st.current.1, "Error: list index out of range") }
  | .connectFail => { frozen := st.frozen, current := (st.current.1, "Connection Failed") }
  | .modbusError => { frozen := st.frozen, current := (st.current.1, "Modbus Error") }
  | .fault m => { frozen := st.frozen, current := (st.current.1, "Error: " ++ m) }

/-- The store after `t` writer steps of the cycle-outcome schedule
`steps` (steps beyond the end of the schedule change nothing). -/
def storeAt (steps : List CycleOutcome) : ℕ → Store
  | 0 => initialStore
  | t + 1 =>
    match steps[t]? with
    | some o => writerStep o (storeAt steps t)
    | none => storeAt steps t

/-- The `/api/data` handler: `jsonify(sensor_data)` serializes the dict
the global currently names. -/
def get_data (st : Store) : SensorDict := st.current

/-- The snapshot published after `t` cycles, as `/api/data` reports it. -/
def snapshotAt (steps : List CycleOutcome) (t : ℕ) : SensorDict :=
  get_data (storeAt steps t)

/-- The dict object with allocation index `i` (indices up to
`frozen.length` are meaningful; index `frozen.length` is the current
dict). -/
def Store.cellAt (st : Store) (i : ℕ) : SensorDict :=
  if i < st.frozen.length then st.frozen.getD i initial_sensor_data else st.current

/-- Events on the main thread's keep-alive loop: either a quiet
`time.sleep(1)` iteration or a `KeyboardInterrupt`, whose handler is
the only assignment to `shutdown_flag`. -/
inductive MainEvent where
  | keyboardInterrupt : MainEvent
  | tick : MainEvent
deriving DecidableEq, Repr

/-- Effect of one main-thread event on `shutdown_flag`: the interrupt
handler sets it `True`; nothing ever writes `False` after start. -/
def stepShutdownFlag (f : Bool) (e : MainEvent) : Bool :=
  match e with
  | .keyboardInterrupt => true
  | .tick => f

/-- `shutdown_flag` after a sequence of main-thread events, starting
from its module-level initial value `False`. -/
def shutdownFlagAfter (evs : List MainEvent) : Bool :=
  evs.foldl stepShutdownFlag false

/-- The JSON body returned by the `/shutdown` route. -/
structure ShutdownResponse where
  status : String
deriving DecidableEq, Repr

/-- The `/shutdown` handler: reports `shutting_down` when the flag is
set, `running` otherwise. -/
def shutdown_route (flag : Bool) : ShutdownResponse :=
  if flag then { status := "shutting_down" } else { status := "running" }

/-! ### Helper lemmas about the decoder -/

theorem decodeRegisters_scaled (r0 r1 r2 r3 r4 : ℕ) (rest : List ℕ) (ts : String)
    (h : 1000 < r0) :
    decodeRegisters (r0 :: r1 :: r2 :: r3 :: r4 :: rest) ts =
      some
        { humidity := (r0 : ℚ) / 100
          temp_c := (r1 : ℚ) / 20
          temp_f := (r2 : ℚ) / 20
          dewpoint_c := (r3 : ℚ) / 100
          dewpoint_f := (r4 : ℚ) / 100
          dewpoint_spread := (r1 : ℚ) / 20 - (r3 : ℚ) / 100
          timestamp := ts
          raw_values := r0 :: r1 :: r2 :: r3 :: r4 :: rest } := by
  simp [decodeRegisters, h]

theorem decodeRegisters_unscaled (r0 r1 r2 r3 r4 : ℕ) (rest : List ℕ) (ts : String)
    (h : r0 ≤ 1000) :
    decodeRegisters (r0 :: r1 :: r2 :: r3 :: r4 :: rest) ts =
      some
        { humidity := (r0 : ℚ)
          temp_c := (r1 : ℚ)
          temp_f := (r2 : ℚ)
          dewpoint_c := (r3 : ℚ)
          dewpoint_f := (r4 : ℚ)
          dewpoint_spread := (r1 : ℚ) - (r3 : ℚ)
          timestamp := ts
          raw_values := r0 :: r1 :: r2 :: r3 :: r4 :: rest } := by
  simp [decodeRegisters, Nat.not_lt.mpr h]

/-! ### C1, C2: the two scaling branches -/

/-- C1: for every 5-register input with `registers[0] > 1000` the decoder
scales per field: humidity `= registers[0]/100`, `temp_c = registers[1]/20`,
`temp_f = registers[2]/20`, `dewpoint_c = registers[3]/100`,
`dewpoint_f = registers[4]/100`, and the spread is `temp_c - dewpoint_c`. -/
theorem decode_scaled_branch (r0 r1 r2 r3 r4 : ℕ) (ts : String) (h : 1000 < r0) :
    decodeRegisters [r0, r1, r2, r3, r4] ts =
      some
        { humidity := (r0 : ℚ) / 100
          temp_c := (r1 : ℚ) / 20
          temp_f := (r2 : ℚ) / 20
          dewpoint_c := (r3 : ℚ) / 100
          dewpoint_f := (r4 : ℚ) / 100
          dewpoint_spread := (r1 : ℚ) / 20 - (r3 : ℚ) / 100
          timestamp := ts
          raw_values := [r0, r1, r2, r3, r4] } :=
  decodeRegisters_scaled r0 r1 r2 r3 r4 [] ts h

/-- C1 witness: the spec scenario `[4550, 440, 1124, 1890, 3362]` decodes
to humidity 45.50, tempC 22.00, tempF 56.20, dewC 18.90, dewF 33.62,
spread 3.10. -/
theorem decode_scaled_branch_witness :
    decodeRegisters [4550, 440, 1124, 1890, 3362] "2025-01-01 00:00:00" =
      some
        { humidity := 45.5
          temp_c := 22
          temp_f := 56.2
          dewpoint_c := 18.9
          dewpoint_f := 33.62
          dewpoint_spread := 3.1
          timestamp := "2025-01-01 00:00:00"
          raw_values := [4550, 440, 1124, 1890, 3362] } := by
  rw [decode_scaled_branch 4550 440 1124 1890 3362 "2025-01-01 00:00:00" (by norm_num)]
  norm_num [Reading.mk.injEq]

/-- C2: for every 5-register input with `registers[0] <= 1000` the decoder
returns the raw register values cast to numbers, unscaled, with the spread
computed as `temp_c - dewpoint_c`. -/
theorem decode_unscaled_branch (r0 r1 r2 r3 r4 : ℕ) (ts : String) (h : r0 ≤ 1000) :
    decodeRegisters [r0, r1, r2, r3, r4] ts =
      some
        { humidity := (r0 : ℚ)
          temp_c := (r1 : ℚ)
          temp_f := (r2 : ℚ)
          dewpoint_c := (r3 : ℚ)
          dewpoint_f := (r4 : ℚ)
          dewpoint_spread := (r1 : ℚ) - (r3 : ℚ)
          timestamp := ts
          raw_values := [r0, r1, r2, r3, r4] } :=
  decodeRegisters_unscaled r0 r1 r2 r3 r4 [] ts h

/-- C2 witness: the spec scenario `[45, 22, 72, 19, 66]` decodes to
humidity 45.0, tempC 22.0, tempF 72.0, dewC 19.0, dewF 66.0, spread 3.0. -/
theorem decode_unscaled_branch_witness :
    decodeRegisters [45, 22, 72, 19, 66] "2025-01-01 00:00:00" =
      some
        { humidity := 45
          temp_c := 22
          temp_f := 72
          dewpoint_c := 19
          dewpoint_f := 66
          dewpoint_spread := 3
          timestamp := "2025-01-01 00:00:00"
          raw_values := [45, 22, 72, 19, 66] } := by
  rw [decode_unscaled_branch 45 22 72 19 66 "2025-01-01 00:00:00" (by norm_num)]
  norm_num [Reading.mk.injEq]

/-! ### C8: totality of the decoder on 5-element input -/

/-- C8: the decoder is total on well-formed input: every 5-element
register list decodes to `some` reading; no index error or other
failure is reachable there. -/
theorem decode_total (raw : List ℕ) (ts : String) (h : raw.length = 5) :
    (decodeRegisters raw ts).isSome = true := by
  rcases raw with _ | ⟨a, _ | ⟨b, _ | ⟨c, _ | ⟨d, _ | ⟨e, rest⟩⟩⟩⟩⟩ <;>
    simp_all [decodeRegisters]

/-- C8 witness: the all-zero register block decodes successfully. -/
theorem decode_total_witness :
    (decodeRegisters [0, 0, 0, 0, 0] "").isSome = true :=
  decode_total [0, 0, 0, 0, 0] "" (by decide)

/-! ### C9: the spread invariant -/

/-- C9: every reading produced by a successful decode, in either branch,
satisfies `dewpoint_spread = temp_c - dewpoint_c`; the spread is derived
after scaling, never taken from a register. -/
theorem spread_invariant (raw : List ℕ) (ts : String) (r : Reading)
    (h : decodeRegisters raw ts = some r) :
    r.dewpoint_spread = r.temp_c - r.dewpoint_c := by
  rcases raw with _ | ⟨a, _ | ⟨b, _ | ⟨c, _ | ⟨d, _ | ⟨e, rest⟩⟩⟩⟩⟩ <;>
    simp only [decodeRegisters, Option.some.injEq, reduceCtorEq] at h
  subst h
  rfl

/-- C9 witness: the invariant holds for the decode of the all-zero block. -/
theorem spread_invariant_witness :
    zeroReading.dewpoint_spread = zeroReading.temp_c - zeroReading.dewpoint_c :=
  spread_invariant [0, 0, 0, 0, 0] "" zeroReading (by
    rw [decodeRegisters_unscaled 0 0 0 0 0 [] "" (by norm_num)]
    simp [zeroReading, Reading.mk.injEq])

/-! ### C10: humidity range of the scaled branch -/

/-- C10: any 5-register input taking the scaled branch (first register
above 1000, below 2^16) yields humidity strictly above 10.0 and at most
655.35, so scaled encodings can never express 10 %RH or less. -/
theorem scaled_humidity_bounds (r0 r1 r2 r3 r4 : ℕ) (ts : String) (r : Reading)
    (h : decodeRegisters [r0, r1, r2, r3, r4] ts = some r)
    (hlo : 1000 < r0) (hhi : r0 < 65536) :
    10 < r.humidity ∧ r.humidity ≤ 655.35 := by
  rw [decodeRegisters_scaled r0 r1 r2 r3 r4 [] ts hlo, Option.some.injEq] at h
  have h1 : (1000 : ℚ) < (r0 : ℚ) := by exact_mod_cast hlo
  have h2 : (r0 : ℚ) ≤ 65535 := by exact_mod_cast Nat.lt_succ_iff.mp hhi
  have hhum : r.humidity = (r0 : ℚ) / 100 := by rw [← h]
  constructor
  · rw [hhum, lt_div_iff₀ (by norm_num : (0 : ℚ) < 100)]
    linarith
  · rw [hhum, div_le_iff₀ (by norm_num : (0 : ℚ) < 100)]
    have : (655.35 : ℚ) * 100 = 65535 := by norm_num
    linarith

/-- C10 witness: the scenario block `[4550, 440, 1124, 1890, 3362]`
has humidity in the stated range. -/
theorem scaled_humidity_bounds_witness :
    10 < ({ humidity := (4550 : ℚ) / 100
            temp_c := (440 : ℚ) / 20
            temp_f := (1124 : ℚ) / 20
            dewpoint_c := (1890 : ℚ) / 100
            dewpoint_f := (3362 : ℚ) / 100
            dewpoint_spread := (440 : ℚ) / 20 - (1890 : ℚ) / 100
            timestamp := "t"
            raw_values := [4550, 440, 1124, 1890, 3362] } : Reading).humidity ∧
      ({ humidity := (4550 : ℚ) / 100
         temp_c := (440 : ℚ) / 20
         temp_f := (1124 : ℚ) / 20
         dewpoint_c := (1890 : ℚ) / 100
         dewpoint_f := (3362 : ℚ) / 100
         dewpoint_spread := (440 : ℚ) / 20 - (1890 : ℚ) / 100
         timestamp := "t"
         raw_values := [4550, 440, 1124, 1890, 3362] } : Reading).humidity ≤ 655.35 :=
  scaled_humidity_bounds 4550 440 1124 1890 3362 "t" _
    (decodeRegisters_scaled 4550 440 1124 1890 3362 [] "t" (by norm_num))
    (by norm_num) (by norm_num)

/-! ### Helper lemmas about one writer step -/

theorem writerStep_frozen_cases (o : CycleOutcome) (st : Store) :
    (writerStep o st).frozen = st.frozen ∨
      (writerStep o st).frozen = st.frozen ++ [st.current] := by
  cases o with
  | connectFail => exact Or.inl rfl
  | modbusError => exact Or.inl rfl
  | fault m => exact Or.inl rfl
  | readOk regs ts =>
    cases hd : decodeRegisters regs ts with
    | none => exact Or.inl (by simp [writerStep, hd])
    | some r2 => exact Or.inr (by simp [writerStep, hd])

theorem writerStep_fst_of_not_success (o : CycleOutcome) (st : Store)
    (h : o.isSuccess = false) :
    (writerStep o st).current.1 = st.current.1 := by
  cases o with
  | connectFail => rfl
  | modbusError => rfl
  | fault m => rfl
  | readOk regs ts =>
    cases hd : decodeRegisters regs ts with
    | none => simp [writerStep, hd]
    | some r2 => simp [CycleOutcome.isSuccess, hd] at h

theorem writerStep_cellAt_fst (o : CycleOutcome) (st : Store) (i : ℕ)
    (hi : i ≤ st.frozen.length) :
    ((writerStep o st).cellAt i).1 = (st.cellAt i).1 ∧
      i ≤ (writerStep o st).frozen.length := by
  rcases writerStep_frozen_cases o st with hf | hf
  · constructor
    · unfold Store.cellAt
      rw [hf]
      split
    
      · rfl
      · have hieq : i = st.frozen.length := Nat.le_antisymm hi (Nat.not_lt.mp (by assumption))
        cases o with
        | connectFail => rfl
        | modbusError => rfl
        | fault m => rfl
        | readOk regs ts =>
          cases hd : decodeRegisters regs ts with
          | none => simp [writerStep, hd]
          | some r2 =>
            exact absurd hf (by simp [writerStep, hd])
    · rw [hf]; exact hi
  · constructor
    · unfold Store.cellAt
      rw [hf]
      by_cases hlt : i < st.frozen.length
      · rw [if_pos hlt, if_pos (by simp; omega), List.getD_append _ _ _ _ hlt]
      · have hieq : i = st.frozen.length := Nat.le_antisymm hi (Nat.not_lt.mp hlt)
        subst hieq
        rw [if_neg hlt, if_pos (by simp)]
        rw [List.getD_append_right _ _ _ _ (le_refl _)]
        simp
    · rw [hf]; simp; omega


theorem storeAt_succ_some (steps : List CycleOutcome) (k : ℕ) (o : CycleOutcome)
    (hs : steps[k]? = some o) :
    storeAt steps (k + 1) = writerStep o (storeAt steps k) := by
  simp [storeAt, hs]

theorem storeAt_succ_none (steps : List CycleOutcome) (k : ℕ)
    (hs : steps[k]? = none) :
    storeAt steps (k + 1) = storeAt steps k := by
  simp [storeAt, hs]

theorem storeAt_cellAt_fst_stable (steps : List CycleOutcome) (t t2 i : ℕ)
    (h : t ≤ t2) (hi : i ≤ (storeAt steps t).frozen.length) :
    ((storeAt steps t2).cellAt i).1 = ((storeAt steps t).cellAt i).1 ∧
      i ≤ (storeAt steps t2).frozen.length := by
  induction t2 with
  | zero =>
    have ht : t = 0 := Nat.le_zero.mp h
    subst ht
    exact ⟨rfl, hi⟩
  | succ k ih =>
    rcases Nat.lt_or_ge t (k + 1) with hlt | hge
    · obtain ⟨he, hb⟩ := ih (Nat.lt_succ_iff.mp hlt)
      cases hs : steps[k]? with
      | none =>
        rw [storeAt_succ_none steps k hs]
        exact ⟨he, hb⟩
      | some o =>
        obtain ⟨h1, h2⟩ := writerStep_cellAt_fst o (storeAt steps k) i hb
        rw [storeAt_succ_some steps k o hs]
        exact ⟨h1.trans he, h2⟩
    · have ht : t = k + 1 := Nat.le_antisymm h hge
      subst ht
      exact ⟨rfl, hi⟩

theorem storeAt_cellAt_published (steps : List CycleOutcome) (t i : ℕ)
    (hi : i ≤ (storeAt steps t).frozen.length) :
    ∃ t2, t2 ≤ t ∧ snapshotAt steps t2 = (storeAt steps t).cellAt i := by
  induction t with
  | zero =>
    refine ⟨0, le_refl 0, ?_⟩
    have hi0 : i = 0 := Nat.le_zero.mp (by simpa [storeAt, initialStore] using hi)
    subst hi0
    simp [snapshotAt, get_data, storeAt, initialStore, Store.cellAt]
  | succ k ih =>
    cases hs : steps[k]? with
    | none =>
      rw [storeAt_succ_none steps k hs] at hi ⊢
      obtain ⟨t2, ht2, hsnap⟩ := ih hi
      exact ⟨t2, Nat.le_succ_of_le ht2, by rw [← storeAt_succ_none steps k hs] at hsnap ⊢; exact hsnap⟩
    | some o =>
      rw [storeAt_succ_some steps k o hs] at hi ⊢
      rcases writerStep_frozen_cases o (storeAt steps k) with hf | hf
      · -- in-place step: frozen unchanged
        rw [hf] at hi
        by_cases hlt : i < (storeAt steps k).frozen.length
        · have hcell :
              ((writerStep o (storeAt steps k)).cellAt i) = ((storeAt steps k).cellAt i) := by
            unfold Store.cellAt
            rw [hf, if_pos hlt, if_pos hlt]
          obtain ⟨t2, ht2, hsnap⟩ := ih (le_of_lt hlt)
          exact ⟨t2, Nat.le_succ_of_le ht2, by rw [hcell]; exact hsnap⟩
        · have hcell :
              ((writerStep o (storeAt steps k)).cellAt i) =
                (writerStep o (storeAt steps k)).current := by
            unfold Store.cellAt
            rw [hf, if_neg hlt]
          refine ⟨k + 1, le_refl _, ?_⟩
          rw [hcell, snapshotAt, get_data, storeAt_succ_some steps k o hs]
      · -- allocation step: frozen extended by the previous current dict
        rw [hf] at hi
        simp only [List.length_append, List.length_singleton] at hi
        by_cases hlt : i < (storeAt steps k).frozen.length
        · have hcell :
              ((writerStep o (storeAt steps k)).cellAt i) = ((storeAt steps k).cellAt i) := by
            unfold Store.cellAt
            rw [hf, if_pos (by simp; omega), if_pos hlt, List.getD_append _ _ _ _ hlt]
          obtain ⟨t2, ht2, hsnap⟩ := ih (le_of_lt hlt)
          exact ⟨t2, Nat.le_succ_of_le ht2, by rw [hcell]; exact hsnap⟩
        · by_cases heq : i = (storeAt steps k).frozen.length
          · have hcell :
                ((writerStep o (storeAt steps k)).cellAt i) = (storeAt steps k).current := by
              unfold Store.cellAt
              subst heq
              rw [hf, if_pos (by simp),
                List.getD_append_right _ _ _ _ (le_refl _)]
              simp
            refine ⟨k, Nat.le_succ k, ?_⟩
            rw [hcell]
            rfl
          · have hi2 : i = (storeAt steps k).frozen.length + 1 := by omega
            have hcell :
                ((writerStep o (storeAt steps k)).cellAt i) =
                  (writerStep o (storeAt steps k)).current := by
              unfold Store.cellAt
              rw [hf, if_neg (by simp; omega)]
            refine ⟨k + 1, le_refl _, ?_⟩
            rw [hcell, snapshotAt, get_data, storeAt_succ_some steps k o hs]

/-! ### C3: failed cycles update only the status -/

/-- C3: a failed cycle (connect failure, Modbus protocol error, or any
raised exception) publishes a snapshot whose status is the corresponding
failure string and whose reading — every field of it — is exactly the
reading published before the cycle. -/
theorem failed_cycle_frame (o : CycleOutcome) (st : Store) (fs : String)
    (h : o.failureStatus = some fs) :
    (writerStep o st).current = (st.current.1, fs) := by
  cases o with
  | connectFail => simp_all [CycleOutcome.failureStatus, writerStep]
  | modbusError => simp_all [CycleOutcome.failureStatus, writerStep]
  | fault m => simp_all [CycleOutcome.failureStatus, writerStep]
  | readOk regs ts => simp [CycleOutcome.failureStatus] at h

/-- C3 witness: a connect failure on the initial store keeps the zero
reading and advances the status to "Connection Failed". -/
theorem failed_cycle_frame_witness :
    (writerStep CycleOutcome.connectFail initialStore).current =
      (initialStore.current.1, "Connection Failed") :=
  failed_cycle_frame CycleOutcome.connectFail initialStore "Connection Failed" rfl

/-! ### C4: readers never observe a torn snapshot -/

/-- C4: a reader that captures the current dict reference at time `t0`
and then serializes its reading fields at time `t1` and its status key
at time `t2` (both at or after the capture, with any number of writer
cycles in between) always observes a pair that was published whole by
some single cycle: the observed combination equals the snapshot
`/api/data` would have returned at some time `t`. -/
theorem no_torn_reads (steps : List CycleOutcome) (t0 t1 t2 : ℕ)
    (h1 : t0 ≤ t1) (h2 : t0 ≤ t2) :
    ∃ t, snapshotAt steps t =
      (((storeAt steps t1).cellAt ((storeAt steps t0).frozen.length)).1,
        ((storeAt steps t2).cellAt ((storeAt steps t0).frozen.length)).2) := by
  obtain ⟨e1, b1⟩ :=
    storeAt_cellAt_fst_stable steps t0 t1 ((storeAt steps t0).frozen.length) h1 (le_refl _)
  obtain ⟨e2, b2⟩ :=
    storeAt_cellAt_fst_stable steps t0 t2 ((storeAt steps t0).frozen.length) h2 (le_refl _)
  obtain ⟨t3, ht3, hsnap⟩ :=
    storeAt_cellAt_published steps t2 ((storeAt steps t0).frozen.length) b2
  refine ⟨t3, ?_⟩
  rw [hsnap]
  exact Prod.ext (e2.trans e1.symm) rfl

/-- C4 witness: with one failed cycle, a reader capturing before the
cycle and reading after it still observes a published snapshot. -/
theorem no_torn_reads_witness :
    ∃ t, snapshotAt [CycleOutcome.connectFail] t =
      (((storeAt [CycleOutcome.connectFail] 1).cellAt
          ((storeAt [CycleOutcome.connectFail] 0).frozen.length)).1,
        ((storeAt [CycleOutcome.connectFail] 1).cellAt
          ((storeAt [CycleOutcome.connectFail] 0).frozen.length)).2) :=
  no_torn_reads [CycleOutcome.connectFail] 0 1 1 (Nat.zero_le 1) (Nat.zero_le 1)

/-! ### C5: the snapshot before any successful cycle -/

/-- C5 counterexample: after one failed (never successful) cycle,
`/api/data` does not return the initial snapshot: the status has
already advanced to "Connection Failed", so "before any cycle has
succeeded the result is the zero reading with status Initializing"
is false as stated. -/
theorem pre_success_snapshot_cex :
    (∀ o ∈ [CycleOutcome.connectFail], o.isSuccess = false) ∧
      snapshotAt [CycleOutcome.connectFail] 1 ≠ (zeroReading, "Initializing...") := by
  constructor
  · intro o ho
    simp only [List.mem_singleton] at ho
    subst ho
    rfl
  · intro hcontra
    have h2 : ("Connection Failed" : String) = "Initializing..." :=
      congrArg Prod.snd hcontra
    exact absurd h2 (by decide)

/-- C5 (amended): before any cycle has run at all, `/api/data` returns
the zero-valued reading with status "Initializing..."; and for as long
as no cycle has succeeded, the reading part stays zero-valued (only the
status may have advanced to a failure tag). -/
theorem pre_success_snapshot (steps : List CycleOutcome) (t : ℕ)
    (h : ∀ o ∈ steps.take t, o.isSuccess = false) :
    snapshotAt steps 0 = (zeroReading, "Initializing...") ∧
      (snapshotAt steps t).1 = zeroReading := by
  refine ⟨rfl, ?_⟩
  revert h
  induction t with
  | zero => intro h; rfl
  | succ k ih =>
      intro h
      have hk : ∀ o ∈ steps.take k, o.isSuccess = false := by
        intro o ho
        refine h o ?_
        have htk : steps.take k = (steps.take (k + 1)).take k := by
          rw [List.take_take, min_eq_left (Nat.le_succ k)]
        exact List.take_subset _ _ (htk ▸ ho)
      cases hs : steps[k]? with
      | none =>
        rw [snapshotAt, get_data, storeAt_succ_none steps k hs]
        exact ih hk
      | some o =>
        have hmem : o ∈ steps.take (k + 1) := by
          have : (steps.take (k + 1))[k]? = some o := by
            rw [List.getElem?_take_of_lt (Nat.lt_succ_self k)]
            exact hs
          exact List.getElem?_mem this
        have ho : o.isSuccess = false := h o hmem
        rw [snapshotAt, get_data, storeAt_succ_some steps k o hs,
          writerStep_fst_of_not_success o (storeAt steps k) ho]
        exact ih hk

/-! ### C6: the shutdown flag is a latch -/

theorem foldl_shutdown_true (evs : List MainEvent) :
    evs.foldl stepShutdownFlag true = true := by
  induction evs with
  | nil => rfl
  | cons e l ih => cases e <;> simpa [stepShutdownFlag]

/-- C6: `shutdown_flag` is false at process start, and once any event
sequence has set it, every further event sequence leaves it set, so
`/shutdown` answers `shutting_down` — and never again `running` — for
every subsequent call. -/
theorem shutdown_latch (evs more : List MainEvent)
    (h : shutdownFlagAfter evs = true) :
    shutdownFlagAfter [] = false ∧
      shutdownFlagAfter (evs ++ more) = true ∧
      shutdown_route (shutdownFlagAfter (evs ++ more)) = { status := "shutting_down" } ∧
      shutdown_route (shutdownFlagAfter (evs ++ more)) ≠ { status := "running" } := by
  have hmono : shutdownFlagAfter (evs ++ more) = true := by
    rw [shutdownFlagAfter, List.foldl_append]
    rw [shutdownFlagAfter] at h
    rw [h]
    exact foldl_shutdown_true more
  refine ⟨rfl, hmono, ?_, ?_⟩
  · rw [hmono]; rfl
  · rw [hmono]
    intro hcontra
    have : ("shutting_down" : String) = "running" :=
      congrArg ShutdownResponse.status hcontra
    exact absurd this (by decide)

/-- C6 witness: after an interrupt, every later poll of `/shutdown`
reports `shutting_down`. -/
theorem shutdown_latch_witness :
    shutdownFlagAfter [] = false ∧
      shutdownFlagAfter ([MainEvent.keyboardInterrupt] ++ [MainEvent.tick]) = true ∧
      shutdown_route (shutdownFlagAfter ([MainEvent.keyboardInterrupt] ++ [MainEvent.tick])) =
        { status := "shutting_down" } ∧
      shutdown_route (shutdownFlagAfter ([MainEvent.keyboardInterrupt] ++ [MainEvent.tick])) ≠
        { status := "running" } :=
  shutdown_latch [MainEvent.keyboardInterrupt] [MainEvent.tick] rfl

/-! ### C7: when the per-cycle connection resource is released -/

/-- C7 counterexample: on a cycle where the register read raises
(e.g. a timeout), control jumps to the `except` handler past
`modbus_client.close()`, so the connection resource is NOT released
on that exit path. -/
theorem close_skipped_on_fault :
    (runCycle (CycleOutcome.fault "read timeout") initial_sensor_data).2 = false := rfl

/-- C7 (amended): `modbus_client.close()` runs exactly on the cycles
where `connect()` succeeded and the read returned a result object —
the successful-decode path and the Modbus-error-reply path; it is
skipped on the connect-failure path and on every path that raises
(including a fault during read or decode). -/
theorem close_called_characterization (o : CycleOutcome) (c : SensorDict) :
    (runCycle o c).2 = true ↔
      (o = CycleOutcome.modbusError ∨
        ∃ regs ts, o = CycleOutcome.readOk regs ts ∧
          (decodeRegisters regs ts).isSome = true) := by
  obtain ⟨r, s⟩ := c
  cases o with
  | connectFail => simp [runCycle]
  | modbusError => simp [runCycle]
  | fault m => simp [runCycle]
  | readOk regs ts =>
    cases hd : decodeRegisters regs ts with
    | none => simp [runCycle, hd]
    | some r2 =>
      simp only [runCycle, hd, true_iff]
      exact Or.inr ⟨regs, ts, rfl, by rw [hd]; rfl⟩

/-- C5 witness (for the amended statement): with a single failed cycle,
the initial snapshot is the zero reading with status "Initializing..."
and after the failed cycle the reading part is still zero-valued. -/
theorem pre_success_snapshot_witness :
    snapshotAt [CycleOutcome.connectFail] 0 = (zeroReading, "Initializing...") ∧
      (snapshotAt [CycleOutcome.connectFail] 1).1 = zeroReading :=
  pre_success_snapshot [CycleOutcome.connectFail] 1 (by
    intro o ho
    simp only [List.take_succ_cons, List.take_zero, List.mem_singleton] at ho
    subst ho
    rfl)
